import Mathlib

/-!
Verification development for the NFT-FORGE client (`src/App.tsx`,
`src/services/geminiService.ts`, `src/types.ts`).

The React component state of `App` is embedded as the structure `AppState`;
the event handlers `handleGenerate`, `listOnPlatform`, `deleteFromHistory`,
the edit-panel Cancel action and the local-storage load effect are embedded
as pure state transformers.  The external generation collaborator is passed
in as an oracle so that a run of the handler is a deterministic function.
The canvas compositing pipeline of `applyEdits` is embedded over an abstract
raster (`Image`) with CSS-filter semantics on rational channel values.
-/

namespace NFTForge

/-- One of the five aspect-ratio presets of `types.ts` (`"1:1" | "3:4" | "4:3"
| "9:16" | "16:9"`).  Named `Aspect` here; the source calls it
`AspectRatio`. -/
inductive Aspect
  | r1x1
  | r3x4
  | r4x3
  | r9x16
  | r16x9
deriving DecidableEq

/-- The `GeneratedNFT` record of `types.ts`: id, data-URI image, prompt,
timestamp, aspect ratio (field `aspect` here, `aspectRatio` in the
source). -/
structure GeneratedNFT where
  id : String
  url : String
  prompt : String
  timestamp : Nat
  aspect : Aspect
deriving DecidableEq

/-- The `EditState` record of `App.tsx` (brightness, contrast, grayscale,
sepia in percent; rotation in degrees). -/
structure EditState where
  brightness : Int
  contrast : Int
  grayscale : Int
  sepia : Int
  rotation : Int
deriving DecidableEq

/-- `INITIAL_EDIT_STATE` from `App.tsx`. -/
def INITIAL_EDIT_STATE : EditState :=
  { brightness := 100, contrast := 100, grayscale := 0, sepia := 0, rotation := 0 }

/-- The share platforms of `listOnPlatform`. -/
inductive Platform
  | x
  | linkedin
  | github
deriving DecidableEq

/-- The component state of `App` that the verified operations read and
write: `prompt`, `aspectRatio`, `history`, `listedIds`, `error`,
`currentNFT`, `isEditing`, `editState`.  The JS `Set<string>` `listedIds`
is embedded as a duplicate-free-by-construction list in insertion order
(`setInsert` below mirrors `Set.add`).  Transient UI flags with no bearing
on the claims (`viewMode`, `isGenerating`, `shareStatus`) are omitted. -/
structure AppState where
  prompt : String
  aspect : Aspect
  history : List GeneratedNFT
  listedIds : List String
  error : Option String
  currentNFT : Option GeneratedNFT
  isEditing : Bool
  editState : EditState
deriving DecidableEq

/-- `Set.add` of JS on the list embedding: append if absent, no-op if
present. -/
def setInsert (id : String) (l : List String) : List String :=
  if id ∈ l then l else l ++ [id]

/-- Whitespace test used by `String.prototype.trim`. -/
def wsp (c : Char) : Bool :=
  c.isWhitespace

/-- `String.prototype.trim`: drop leading whitespace, then trailing
whitespace. -/
def trimChars (cs : List Char) : List Char :=
  ((cs.dropWhile wsp).reverse.dropWhile wsp).reverse

/-- The inline validation message of `handleGenerate`. -/
def validationMsg : String :=
  "Please enter a prompt to generate an image."

/-- `handleGenerate` from `App.tsx` (lines 69-95), with the external
generation collaborator passed as an oracle `collab` and the impure
`crypto.randomUUID()` / `Date.now()` values passed as `freshId` / `now`.
Returns the successor state together with a flag recording whether the
collaborator was invoked.  The blank-prompt guard is `!prompt.trim()`;
on success the new asset is prepended and the history truncated by
`.slice(0, 12)`; on collaborator failure only the error message (and the
already-reset editing flag) change. -/
def handleGenerate (freshId : String) (now : Nat)
    (collab : String → Aspect → Except String String)
    (s : AppState) : AppState × Bool :=
  if trimChars s.prompt.data = [] then
    ({ s with error := some validationMsg }, false)
  else
    match collab s.prompt s.aspect with
    | Except.ok imageUrl =>
      let newNFT : GeneratedNFT :=
        { id := freshId, url := imageUrl, prompt := s.prompt,
          timestamp := now, aspect := s.aspect }
      ({ s with error := none, isEditing := false,
                currentNFT := some newNFT,
                history := (newNFT :: s.history).take 12 }, true)
    | Except.error msg =>
      ({ s with error := some msg, isEditing := false }, true)

/-- The history update of a successful generation, `App.tsx` line 89:
`[newNFT, ...prev].slice(0, 12)`. -/
def create (a : GeneratedNFT) (h : List GeneratedNFT) : List GeneratedNFT :=
  (a :: h).take 12

/-- One generation step with a fixed oracle outcome. -/
def genStep (freshId : String) (now : Nat) (result : Except String String)
    (s : AppState) : AppState :=
  (handleGenerate freshId now (fun _ _ => result) s).1

/-- A sequence of generation steps. -/
def runGens (l : List (String × Nat × Except String String)) (s : AppState) : AppState :=
  l.foldl (fun s i => genStep i.1 i.2.1 i.2.2 s) s

/-- `listOnPlatform` from `App.tsx` (lines 97-116): the platform choice only
selects the externally opened share URL; the state change is
`setListedIds(prev => new Set(prev).add(nft.id))`. -/
def listOnPlatform (_platform : Platform) (nft : GeneratedNFT) (s : AppState) : AppState :=
  { s with listedIds := setInsert nft.id s.listedIds }

/-- `deleteFromHistory` from `App.tsx` (lines 152-161): filter the asset out
of the history, `Set.delete` the id from the listed set, and clear
`currentNFT` exactly when `currentNFT?.id === id`. -/
def deleteFromHistory (id : String) (s : AppState) : AppState :=
  { s with
    history := s.history.filter (fun item => item.id != id),
    listedIds := s.listedIds.filter (fun j => j != id),
    currentNFT :=
      match s.currentNFT with
      | some c => if c.id = id then none else some c
      | none => none }

/-- The edit-panel Cancel action, `App.tsx` line 298:
`onClick={() => setIsEditing(false)}`.  Nothing else changes. -/
def cancelEdit (s : AppState) : AppState :=
  { s with isEditing := false }

/-- The local-storage load effect for `nft_history`, `App.tsx` lines 44-55:
`none` models a `JSON.parse` failure (caught, state untouched); `some l`
models a parse success, after which `setHistory(parsed)` runs with no
capacity bound and `currentNFT` becomes the head when non-empty. -/
def loadHistory (parsed : Option (List GeneratedNFT)) (s : AppState) : AppState :=
  match parsed with
  | none => s
  | some l =>
    { s with history := l,
             currentNFT :=
               match l with
               | [] => s.currentNFT
               | a :: _ => some a }

/-- The fixed text prepended to every prompt by `generateNFTImage` in
`geminiService.ts` before the model is invoked. -/
def stylePreamble : String :=
  "High quality NFT digital art, professional lighting, unique concept, highly detailed, masterwork style: "

/-- The request `generateNFTImage` sends to the generation model: the
`text` part and the `imageConfig.aspectRatio` (field `aspect` here). -/
structure GenRequest where
  text : String
  aspect : Aspect
deriving DecidableEq

/-- The request construction of `geminiService.ts` lines 14-28: the model
receives the style preamble concatenated with the caller's prompt, and the
caller's aspect ratio. -/
def generateNFTImage_request (prompt : String) (ar : Aspect) : GenRequest :=
  { text := stylePreamble ++ prompt, aspect := ar }

/-- One part of the model response: an optional base64 inline image
payload. -/
structure Part where
  inlineData : Option String
deriving DecidableEq

/-- The extraction loop of `geminiService.ts` lines 32-41: scan the first
candidate's parts, take the first inline payload, wrap it in a data URI;
an exhausted scan leaves the empty string. -/
def extractImageUrl : List Part → String
  | [] => ""
  | p :: rest =>
    match p.inlineData with
    | some d => "data:image/png;base64," ++ d
    | none => extractImageUrl rest

/-- The extraction failure message of `geminiService.ts`. -/
def extractionMsg : String :=
  "Failed to extract image from model response."

/-- `generateNFTImage` result handling, `geminiService.ts` lines 30-46:
if no inline payload was found the call throws the extraction error,
otherwise it returns the data URI. -/
def generateNFTImage_result (parts : List Part) : Except String String :=
  if extractImageUrl parts = "" then Except.error extractionMsg
  else Except.ok (extractImageUrl parts)

/-- The output canvas dimensions of `applyEdits`, `App.tsx` lines 136-138:
width and height swap exactly when `rotation % 180 !== 0`. -/
def canvasDims (w h : Nat) (rotation : Int) : Nat × Nat :=
  if rotation % 180 ≠ 0 then (h, w) else (w, h)

/-- One RGBA raster sample, channels as rationals normalised to `[0, 1]`. -/
structure Pixel where
  r : ℚ
  g : ℚ
  b : ℚ
  a : ℚ
deriving DecidableEq

/-- An abstract raster: dimensions and a sample function. -/
structure Image where
  width : Nat
  height : Nat
  pixel : Nat → Nat → Pixel

/-- Channel values are clamped to `[0, 1]` after each filter primitive. -/
def clamp01 (x : ℚ) : ℚ :=
  max 0 (min 1 x)

/-- All colour channels of the pixel lie in `[0, 1]`. -/
def validPixel (p : Pixel) : Prop :=
  0 ≤ p.r ∧ p.r ≤ 1 ∧ 0 ≤ p.g ∧ p.g ≤ 1 ∧ 0 ≤ p.b ∧ p.b ≤ 1

/-- CSS `brightness(amount)`: linear scaling of the colour channels, alpha
untouched. -/
def brightnessF (amount : ℚ) (p : Pixel) : Pixel :=
  { r := clamp01 (p.r * amount)
    g := clamp01 (p.g * amount)
    b := clamp01 (p.b * amount)
    a := p.a }

/-- CSS `contrast(amount)`: scaling of the colour channels about the
midpoint `1/2`, alpha untouched. -/
def contrastF (amount : ℚ) (p : Pixel) : Pixel :=
  { r := clamp01 ((p.r - 1/2) * amount + 1/2)
    g := clamp01 ((p.g - 1/2) * amount + 1/2)
    b := clamp01 ((p.b - 1/2) * amount + 1/2)
    a := p.a }

/-- CSS `grayscale(amount)`: the filter-effects colour matrix interpolated
by `1 - amount`, alpha untouched. -/
def grayscaleF (amount : ℚ) (p : Pixel) : Pixel :=
  { r := clamp01 ((2126/10000 + 7874/10000 * (1 - amount)) * p.r
        + (7152/10000 - 7152/10000 * (1 - amount)) * p.g
        + (722/10000 - 722/10000 * (1 - amount)) * p.b)
    g := clamp01 ((2126/10000 - 2126/10000 * (1 - amount)) * p.r
        + (7152/10000 + 2848/10000 * (1 - amount)) * p.g
        + (722/10000 - 722/10000 * (1 - amount)) * p.b)
    b := clamp01 ((2126/10000 - 2126/10000 * (1 - amount)) * p.r
        + (7152/10000 - 7152/10000 * (1 - amount)) * p.g
        + (722/10000 + 9278/10000 * (1 - amount)) * p.b)
    a := p.a }

/-- CSS `sepia(amount)`: the filter-effects sepia matrix interpolated by
`1 - amount`, alpha untouched. -/
def sepiaF (amount : ℚ) (p : Pixel) : Pixel :=
  { r := clamp01 ((393/1000 + 607/1000 * (1 - amount)) * p.r
        + (769/1000 - 769/1000 * (1 - amount)) * p.g
        + (189/1000 - 189/1000 * (1 - amount)) * p.b)
    g := clamp01 ((349/1000 - 349/1000 * (1 - amount)) * p.r
        + (686/1000 + 314/1000 * (1 - amount)) * p.g
        + (168/1000 - 168/1000 * (1 - amount)) * p.b)
    b := clamp01 ((272/1000 - 272/1000 * (1 - amount)) * p.r
        + (534/1000 - 534/1000 * (1 - amount)) * p.g
        + (131/1000 + 869/1000 * (1 - amount)) * p.b)
    a := p.a }

/-- The one-pass filter stack of `applyEdits`, `App.tsx` line 140:
`brightness(...%) contrast(...%) grayscale(...%) sepia(...%)`, amounts
taken as percentages of the current `EditState`. -/
def filterStack (e : EditState) (p : Pixel) : Pixel :=
  sepiaF ((e.sepia : ℚ) / 100)
    (grayscaleF ((e.grayscale : ℚ) / 100)
      (contrastF ((e.contrast : ℚ) / 100)
        (brightnessF ((e.brightness : ℚ) / 100) p)))

/-- Number of exact quarter turns of a rotation that is a multiple of 90
degrees, after reduction mod 360. -/
def quarterTurns (rotation : Int) : Nat :=
  ((rotation % 360) / 90).toNat

/-- Drawing the source centred on the output canvas after `q` clockwise
quarter turns about the canvas centre (`App.tsx` lines 141-143), as the
exact index permutation the canvas transform realises on whole-pixel
quarter-turn rotations. -/
def drawRotated (img : Image) (q : Nat) : Image :=
  match q % 4 with
  | 0 => img
  | 1 => { width := img.height, height := img.width,
           pixel := fun x y => img.pixel y (img.height - 1 - x) }
  | 2 => { width := img.width, height := img.height,
           pixel := fun x y => img.pixel (img.width - 1 - x) (img.height - 1 - y) }
  | _ => { width := img.height, height := img.width,
           pixel := fun x y => img.pixel (img.width - 1 - y) x }

/-- The compositing pipeline of `applyEdits`, `App.tsx` lines 127-144:
filter every source sample through the CSS filter stack, then draw the
result rotated onto the output canvas.  The PNG re-encoding at the end is
lossless and therefore not modelled. -/
def applyEditsModel (e : EditState) (img : Image) : Image :=
  drawRotated
    { width := img.width, height := img.height,
      pixel := fun x y => filterStack e (img.pixel x y) }
    (quarterTurns e.rotation)

/-- The initial component state of `App`: empty prompt, ratio `1:1`, empty
history, nothing listed, no selection, idle edit session. -/
def initState : AppState :=
  { prompt := "", aspect := Aspect.r1x1, history := [], listedIds := [],
    error := none, currentNFT := none, isEditing := false,
    editState := INITIAL_EDIT_STATE }

/-- The initial state with a non-blank prompt typed in. -/
def promptState : AppState :=
  { initState with prompt := "dragon" }

/-- A stub collaborator success payload. -/
def okUrl : String :=
  "data:image/png;base64,QQ=="

/-- The asset produced by the first stubbed generation from
`promptState`. -/
def nft1 : GeneratedNFT :=
  { id := "id1", url := okUrl, prompt := "dragon", timestamp := 1,
    aspect := Aspect.r1x1 }

/-- State after one successful generation from `promptState`. -/
def stateAfterFirst : AppState :=
  genStep "id1" 1 (Except.ok okUrl) promptState

/-- State after sharing (and thereby listing) the first asset. -/
def stateListed : AppState :=
  listOnPlatform Platform.x nft1 stateAfterFirst

/-- Twelve further successful generations. -/
def gens12more : List (String × Nat × Except String String) :=
  [("id2", 2, Except.ok okUrl), ("id3", 3, Except.ok okUrl),
   ("id4", 4, Except.ok okUrl), ("id5", 5, Except.ok okUrl),
   ("id6", 6, Except.ok okUrl), ("id7", 7, Except.ok okUrl),
   ("id8", 8, Except.ok okUrl), ("id9", 9, Except.ok okUrl),
   ("id10", 10, Except.ok okUrl), ("id11", 11, Except.ok okUrl),
   ("id12", 12, Except.ok okUrl), ("id13", 13, Except.ok okUrl)]

/-- State in which the listed first asset has been evicted by capacity
overflow: list it, then run twelve more generations. -/
def staleState : AppState :=
  runGens gens12more stateListed

/-- Thirteen successful generations in a row. -/
def gens13 : List (String × Nat × Except String String) :=
  ("id1", 1, Except.ok okUrl) :: gens12more

/-- A second distinct asset, for the deletion scenarios. -/
def nft2 : GeneratedNFT :=
  { id := "id2", url := okUrl, prompt := "phoenix", timestamp := 2,
    aspect := Aspect.r3x4 }

/-- A state with two assets, both listed, the first selected. -/
def delState : AppState :=
  { promptState with
    history := [nft1, nft2], listedIds := ["id1", "id2"],
    currentNFT := some nft1 }

/-- A blank (whitespace-only) prompt state. -/
def blankState : AppState :=
  { initState with prompt := "   " }

/-- A mid-session editing state with non-default edit parameters. -/
def editingState : AppState :=
  { promptState with
    history := [nft1], currentNFT := some nft1,
    isEditing := true,
    editState := { brightness := 50, contrast := 100, grayscale := 0,
                   sepia := 0, rotation := 0 } }

/-- A tiny concrete valid raster. -/
def imgEx : Image :=
  { width := 2, height := 2, pixel := fun _ _ => { r := 1/2, g := 0, b := 1, a := 1 } }

/-- A trimmed character list is empty exactly when every character is
whitespace. -/
theorem trimChars_eq_nil_iff (cs : List Char) :
    trimChars cs = [] ↔ ∀ c ∈ cs, wsp c = true := by
  simp only [trimChars, List.reverse_eq_nil_iff, List.dropWhile_eq_nil_iff,
    List.mem_reverse]
  constructor
  · intro h c hc
    rw [← List.takeWhile_append_dropWhile (p := wsp) (l := cs)] at hc
    rcases List.mem_append.mp hc with h1 | h2
    · exact List.mem_takeWhile_imp h1
    · exact h c h2
  · intro h c hc
    exact h c ((List.dropWhile_sublist (p := wsp) (l := cs)).subset hc)

/-- A single generation step either leaves the history alone (blank prompt
or collaborator failure) or performs the `create` prepend-and-truncate. -/
theorem genStep_history_cases (freshId : String) (now : Nat)
    (result : Except String String) (s : AppState) :
    (genStep freshId now result s).history = s.history
    ∨ ∃ a, (genStep freshId now result s).history = create a s.history := by
  by_cases h : trimChars s.prompt.data = []
  · left
    simp [genStep, handleGenerate, h]
  · cases result with
    | ok u =>
      right
      exact ⟨{ id := freshId, url := u, prompt := s.prompt, timestamp := now,
               aspect := s.aspect },
             by simp [genStep, handleGenerate, h, create]⟩
    | error m =>
      left
      simp [genStep, handleGenerate, h]

/-- C1: every sequence of generation calls keeps the history length at or
below 12, and a single `create` retains a newest-first initial segment of
the would-be history, the evicted part being exactly the oldest tail
(`create a h ++ (a :: h).drop 12 = a :: h`). -/
theorem history_capacity_invariant :
    (∀ (l : List (String × Nat × Except String String)) (s : AppState),
        s.history.length ≤ 12 → (runGens l s).history.length ≤ 12)
    ∧ ∀ (a : GeneratedNFT) (h : List GeneratedNFT),
        (create a h).length ≤ 12 ∧ create a h ++ (a :: h).drop 12 = a :: h := by
  constructor
  · intro l
    induction l with
    | nil =>
      intro s hs
      exact hs
    | cons i t ih =>
      intro s hs
      have hstep : (genStep i.1 i.2.1 i.2.2 s).history.length ≤ 12 := by
        rcases genStep_history_cases i.1 i.2.1 i.2.2 s with h | ⟨a, h⟩
        · rw [h]; exact hs
        · rw [h]
          simp only [create, List.length_take, List.length_cons]
          omega
      have hrw : runGens (i :: t) s = runGens t (genStep i.1 i.2.1 i.2.2 s) := rfl
      rw [hrw]
      exact ih _ hstep
  · intro a h
    refine ⟨?_, ?_⟩
    · simp only [create, List.length_take, List.length_cons]
      omega
    · show (a :: h).take 12 ++ (a :: h).drop 12 = a :: h
      exact List.take_append_drop 12 (a :: h)

/-- Witness for C1 at thirteen concrete successful generations from the
empty forge. -/
theorem history_capacity_invariant_witness :
    promptState.history.length ≤ 12
    ∧ (runGens gens13 promptState).history.length ≤ 12 :=
  ⟨by decide, history_capacity_invariant.1 gens13 promptState (by decide)⟩

/-- C2 exhibit: generate an asset, list it, then run twelve further
generations.  The first asset is evicted from the history by the capacity
bound, yet its id is still in the listed set, so a listed id references no
asset present in the history. -/
theorem eviction_leaves_stale_listing :
    nft1 ∈ stateAfterFirst.history
    ∧ "id1" ∈ staleState.listedIds
    ∧ ∀ a ∈ staleState.history, a.id ≠ "id1" := by
  decide

/-- C3: `deleteFromHistory id` keeps exactly the assets whose id differs
(so it is a no-op on the history when no asset carries the id), removes the
id from the listed set while keeping every other listed id, clears the
selection exactly when the selected asset carried the id, and otherwise
leaves the selection unchanged. -/
theorem deleteFromHistory_cascade (s : AppState) (id : String) :
    (∀ a, a ∈ (deleteFromHistory id s).history ↔ a ∈ s.history ∧ a.id ≠ id)
    ∧ ((∀ a ∈ s.history, a.id ≠ id) →
        (deleteFromHistory id s).history = s.history)
    ∧ id ∉ (deleteFromHistory id s).listedIds
    ∧ (∀ j, j ≠ id →
        (j ∈ (deleteFromHistory id s).listedIds ↔ j ∈ s.listedIds))
    ∧ (∀ c, s.currentNFT = some c → c.id = id →
        (deleteFromHistory id s).currentNFT = none)
    ∧ ((∀ c, s.currentNFT = some c → c.id ≠ id) →
        (deleteFromHistory id s).currentNFT = s.currentNFT) := by
  refine ⟨?_, ?_, ?_, ?_, ?_, ?_⟩
  · intro a
    simp [deleteFromHistory, List.mem_filter, bne_iff_ne]
  · intro h
    simp only [deleteFromHistory]
    exact List.filter_eq_self.mpr fun a ha => by
      simpa [bne_iff_ne] using h a ha
  · simp [deleteFromHistory, List.mem_filter]
  · intro j hj
    simp [deleteFromHistory, List.mem_filter, bne_iff_ne, hj]
  · intro c hc hcid
    simp [deleteFromHistory, hc, hcid]
  · intro h
    cases hcn : s.currentNFT with
    | none => simp [deleteFromHistory, hcn]
    | some c => simp [deleteFromHistory, hcn, h c hcn]

/-- Witness for C3 on a concrete two-asset state: deleting the selected
asset clears the selection, deleting an absent id is a history no-op, and
the other listed id survives. -/
theorem deleteFromHistory_cascade_witness :
    (deleteFromHistory "id1" delState).currentNFT = none
    ∧ ((∀ a ∈ delState.history, a.id ≠ "id9")
        ∧ (deleteFromHistory "id9" delState).history = delState.history)
    ∧ ("id2" ∈ (deleteFromHistory "id1" delState).listedIds
        ↔ "id2" ∈ delState.listedIds) :=
  ⟨(deleteFromHistory_cascade delState "id1").2.2.2.2.1 nft1 rfl rfl,
   ⟨by decide, (deleteFromHistory_cascade delState "id9").2.1 (by decide)⟩,
   (deleteFromHistory_cascade delState "id1").2.2.2.1 "id2" (by decide)⟩

/-- C4: on a prompt whose characters are all whitespace (the empty prompt
included), `handleGenerate` rejects with the validation message, never
invokes the collaborator, and leaves history, selection and listed set
unchanged. -/
theorem blank_prompt_validation (s : AppState) (freshId : String) (now : Nat)
    (collab : String → Aspect → Except String String)
    (hws : ∀ c ∈ s.prompt.data, wsp c = true) :
    (handleGenerate freshId now collab s).2 = false
    ∧ (handleGenerate freshId now collab s).1.history = s.history
    ∧ (handleGenerate freshId now collab s).1.currentNFT = s.currentNFT
    ∧ (handleGenerate freshId now collab s).1.listedIds = s.listedIds
    ∧ (handleGenerate freshId now collab s).1.error = some validationMsg := by
  have h0 : trimChars s.prompt.data = [] := (trimChars_eq_nil_iff _).2 hws
  simp [handleGenerate, h0]

/-- Witness for C4 at the concrete three-space prompt. -/
theorem blank_prompt_validation_witness :
    (∀ c ∈ blankState.prompt.data, wsp c = true)
    ∧ (handleGenerate "f1" 5 (fun _ _ => Except.ok okUrl) blankState).2 = false
    ∧ (handleGenerate "f1" 5 (fun _ _ => Except.ok okUrl) blankState).1.history
        = blankState.history := by
  have hws : ∀ c ∈ blankState.prompt.data, wsp c = true := by decide
  exact ⟨hws,
    (blank_prompt_validation blankState "f1" 5 (fun _ _ => Except.ok okUrl) hws).1,
    (blank_prompt_validation blankState "f1" 5 (fun _ _ => Except.ok okUrl) hws).2.1⟩

/-- Appending strings concatenates their character data. -/
theorem string_data_append (a b : String) : (a ++ b).data = a.data ++ b.data := by
  cases a
  cases b
  rfl

/-- C5 counterexample: the text handed to the generation model for the
prompt `"cat"` is not `"cat"` — the service prepends a style preamble. -/
theorem collaborator_prompt_modified_cex :
    (generateNFTImage_request "cat" Aspect.r1x1).text ≠ "cat" := by
  decide

/-- C5 amended: the request carries the caller's aspect ratio unchanged and
a text equal to the fixed style preamble followed by the caller's prompt;
the prompt appears verbatim as a suffix of the sent text, not as the whole
text. -/
theorem collaborator_request_shape (prompt : String) (ar : Aspect) :
    (generateNFTImage_request prompt ar).aspect = ar
    ∧ (generateNFTImage_request prompt ar).text = stylePreamble ++ prompt
    ∧ prompt.data <:+ (generateNFTImage_request prompt ar).text.data := by
  refine ⟨rfl, rfl, ?_⟩
  show prompt.data <:+ (stylePreamble ++ prompt).data
  rw [string_data_append]
  exact List.suffix_append _ _

/-- A successful extraction result is never the empty string. -/
theorem result_ok_ne_empty {parts : List Part} {r : String}
    (h : generateNFTImage_result parts = Except.ok r) : r ≠ "" := by
  by_cases he : extractImageUrl parts = ""
  · rw [generateNFTImage_result, if_pos he] at h
    exact absurd h (by simp)
  · rw [generateNFTImage_result, if_neg he] at h
    rw [Except.ok.inj h] at he
    exact he

/-- When no part carries an inline payload the extraction scan yields the
empty string. -/
theorem extractImageUrl_none {parts : List Part}
    (h : ∀ p ∈ parts, p.inlineData = none) : extractImageUrl parts = "" := by
  induction parts with
  | nil => rfl
  | cons p rest ih =>
    have hp := h p (by simp)
    simp only [extractImageUrl, hp]
    exact ih fun q hq => h q (by simp [hq])

/-- C6: the generation service returns a non-empty data URI or throws; a
response with no inline image payload throws the extraction error; and a
successful generation installs as the selection an asset whose image data
is non-empty. -/
theorem generation_nonempty_image :
    (∀ (parts : List Part) (r : String),
        generateNFTImage_result parts = Except.ok r → r ≠ "")
    ∧ (∀ parts : List Part, (∀ p ∈ parts, p.inlineData = none) →
        generateNFTImage_result parts = Except.error extractionMsg)
    ∧ ∀ (s : AppState) (freshId : String) (now : Nat) (parts : List Part)
        (r : String),
        generateNFTImage_result parts = Except.ok r →
        trimChars s.prompt.data ≠ [] →
        ∃ a, (handleGenerate freshId now
                (fun _ _ => generateNFTImage_result parts) s).1.currentNFT
              = some a ∧ a.url ≠ "" := by
  refine ⟨fun parts r h => result_ok_ne_empty h, fun parts h => ?_, ?_⟩
  · rw [generateNFTImage_result, if_pos (extractImageUrl_none h)]
  · intro s freshId now parts r hok htrim
    refine ⟨{ id := freshId, url := r, prompt := s.prompt, timestamp := now,
              aspect := s.aspect }, ?_, result_ok_ne_empty hok⟩
    simp [handleGenerate, htrim, hok]

/-- Witness for C6 at a one-part payload response and a no-payload
response. -/
theorem generation_nonempty_image_witness :
    generateNFTImage_result [Part.mk (some "QQ==")]
        = Except.ok "data:image/png;base64,QQ=="
    ∧ "data:image/png;base64,QQ==" ≠ ""
    ∧ (∀ p ∈ [Part.mk (none : Option String)], p.inlineData = none)
    ∧ generateNFTImage_result [Part.mk (none : Option String)]
        = Except.error extractionMsg
    ∧ trimChars promptState.prompt.data ≠ []
    ∧ ∃ a, (handleGenerate "f1" 7
              (fun _ _ => generateNFTImage_result [Part.mk (some "QQ==")])
              promptState).1.currentNFT = some a ∧ a.url ≠ "" := by
  have h1 : generateNFTImage_result [Part.mk (some "QQ==")]
      = Except.ok "data:image/png;base64,QQ==" := rfl
  have h2 : ∀ p ∈ [Part.mk (none : Option String)], p.inlineData = none := by
    simp
  have h3 : trimChars promptState.prompt.data ≠ [] := by decide
  exact ⟨h1, generation_nonempty_image.1 _ _ h1, h2,
    generation_nonempty_image.2.1 _ h2, h3,
    generation_nonempty_image.2.2 promptState "f1" 7 _ _ h1 h3⟩

/-- C7: for a rotation that is an odd multiple of 90 degrees the output
canvas swaps the source dimensions, and for an even multiple (0 or 180 mod
360) it keeps them. -/
theorem rotation_dimension_law (w h : Nat) (k : Int) :
    (Odd k → canvasDims w h (90 * k) = (h, w))
    ∧ (Even k → canvasDims w h (90 * k) = (w, h)) := by
  constructor
  · rintro ⟨m, rfl⟩
    have hm : (90 * (2 * m + 1)) % 180 ≠ 0 := by omega
    simp [canvasDims, hm]
  · rintro ⟨m, rfl⟩
    have hm : (90 * (m + m)) % 180 = 0 := by omega
    simp [canvasDims, hm]

/-- Witness for C7: an 800 by 600 source rotated 90 degrees gives a 600 by
800 canvas; rotated 180 degrees it keeps 800 by 600. -/
theorem rotation_dimension_law_witness :
    Odd (1 : Int) ∧ canvasDims 800 600 (90 * 1) = (600, 800)
    ∧ Even (2 : Int) ∧ canvasDims 800 600 (90 * 2) = (800, 600) :=
  ⟨⟨0, by norm_num⟩, (rotation_dimension_law 800 600 1).1 ⟨0, by norm_num⟩,
   ⟨1, by norm_num⟩, (rotation_dimension_law 800 600 2).2 ⟨1, by norm_num⟩⟩

/-- Clamping fixes a value already in the unit interval. -/
theorem clamp01_of_bounds {x : ℚ} (h0 : 0 ≤ x) (h1 : x ≤ 1) : clamp01 x = x := by
  rw [clamp01, min_eq_right h1, max_eq_right h0]

/-- Brightness at 100 percent is the identity on valid pixels. -/
theorem brightnessF_one {p : Pixel} (hp : validPixel p) : brightnessF 1 p = p := by
  obtain ⟨h0r, h1r, h0g, h1g, h0b, h1b⟩ := hp
  simp only [brightnessF, mul_one, clamp01_of_bounds h0r h1r,
    clamp01_of_bounds h0g h1g, clamp01_of_bounds h0b h1b]

/-- Contrast at 100 percent is the identity on valid pixels. -/
theorem contrastF_one {p : Pixel} (hp : validPixel p) : contrastF 1 p = p := by
  obtain ⟨h0r, h1r, h0g, h1g, h0b, h1b⟩ := hp
  have e : ∀ x : ℚ, (x - 1/2) * 1 + 1/2 = x := fun x => by ring
  simp only [contrastF, e, clamp01_of_bounds h0r h1r,
    clamp01_of_bounds h0g h1g, clamp01_of_bounds h0b h1b]

/-- Grayscale at 0 percent is the identity on valid pixels. -/
theorem grayscaleF_zero {p : Pixel} (hp : validPixel p) : grayscaleF 0 p = p := by
  obtain ⟨h0r, h1r, h0g, h1g, h0b, h1b⟩ := hp
  have e1 : ∀ x y z : ℚ,
      (2126/10000 + 7874/10000 * (1 - 0)) * x
        + (7152/10000 - 7152/10000 * (1 - 0)) * y
        + (722/10000 - 722/10000 * (1 - 0)) * z = x := fun x y z => by ring
  have e2 : ∀ x y z : ℚ,
      (2126/10000 - 2126/10000 * (1 - 0)) * x
        + (7152/10000 + 2848/10000 * (1 - 0)) * y
        + (722/10000 - 722/10000 * (1 - 0)) * z = y := fun x y z => by ring
  have e3 : ∀ x y z : ℚ,
      (2126/10000 - 2126/10000 * (1 - 0)) * x
        + (7152/10000 - 7152/10000 * (1 - 0)) * y
        + (722/10000 + 9278/10000 * (1 - 0)) * z = z := fun x y z => by ring
  simp only [grayscaleF, e1, e2, e3, clamp01_of_bounds h0r h1r,
    clamp01_of_bounds h0g h1g, clamp01_of_bounds h0b h1b]

/-- Sepia at 0 percent is the identity on valid pixels. -/
theorem sepiaF_zero {p : Pixel} (hp : validPixel p) : sepiaF 0 p = p := by
  obtain ⟨h0r, h1r, h0g, h1g, h0b, h1b⟩ := hp
  have e1 : ∀ x y z : ℚ,
      (393/1000 + 607/1000 * (1 - 0)) * x
        + (769/1000 - 769/1000 * (1 - 0)) * y
        + (189/1000 - 189/1000 * (1 - 0)) * z = x := fun x y z => by ring
  have e2 : ∀ x y z : ℚ,
      (349/1000 - 349/1000 * (1 - 0)) * x
        + (686/1000 + 314/1000 * (1 - 0)) * y
        + (168/1000 - 168/1000 * (1 - 0)) * z = y := fun x y z => by ring
  have e3 : ∀ x y z : ℚ,
      (272/1000 - 272/1000 * (1 - 0)) * x
        + (534/1000 - 534/1000 * (1 - 0)) * y
        + (131/1000 + 869/1000 * (1 - 0)) * z = z := fun x y z => by ring
  simp only [sepiaF, e1, e2, e3, clamp01_of_bounds h0r h1r,
    clamp01_of_bounds h0g h1g, clamp01_of_bounds h0b h1b]

/-- The default filter stack is the identity on valid pixels. -/
theorem filterStack_default {p : Pixel} (hp : validPixel p) :
    filterStack INITIAL_EDIT_STATE p = p := by
  have hb : ((INITIAL_EDIT_STATE.brightness : ℚ) / 100) = 1 := by
    norm_num [INITIAL_EDIT_STATE]
  have hc : ((INITIAL_EDIT_STATE.contrast : ℚ) / 100) = 1 := by
    norm_num [INITIAL_EDIT_STATE]
  have hg : ((INITIAL_EDIT_STATE.grayscale : ℚ) / 100) = 0 := by
    norm_num [INITIAL_EDIT_STATE]
  have hs : ((INITIAL_EDIT_STATE.sepia : ℚ) / 100) = 0 := by
    norm_num [INITIAL_EDIT_STATE]
  rw [filterStack, hb, hc, hg, hs, brightnessF_one hp, contrastF_one hp,
    grayscaleF_zero hp, sepiaF_zero hp]

/-- C8: the edit pipeline with the default parameters preserves the canvas
dimensions and every pixel of a valid source raster — an identity
transform. -/
theorem applyEdits_default_identity (img : Image)
    (hv : ∀ x y, validPixel (img.pixel x y)) :
    (applyEditsModel INITIAL_EDIT_STATE img).width = img.width
    ∧ (applyEditsModel INITIAL_EDIT_STATE img).height = img.height
    ∧ ∀ x y, (applyEditsModel INITIAL_EDIT_STATE img).pixel x y = img.pixel x y := by
  refine ⟨rfl, rfl, fun x y => ?_⟩
  show filterStack INITIAL_EDIT_STATE (img.pixel x y) = img.pixel x y
  exact filterStack_default (hv x y)

/-- Witness for C8 on a concrete two-by-two raster. -/
theorem applyEdits_default_identity_witness :
    (∀ x y, validPixel (imgEx.pixel x y))
    ∧ ∀ x y, (applyEditsModel INITIAL_EDIT_STATE imgEx).pixel x y
        = imgEx.pixel x y := by
  have hv : ∀ x y, validPixel (imgEx.pixel x y) := by
    intro x y
    refine ⟨?_, ?_, ?_, ?_, ?_, ?_⟩ <;> norm_num [imgEx]
  exact ⟨hv, (applyEdits_default_identity imgEx hv).2.2⟩

/-- C9 counterexample: cancelling an edit session with brightness 50 leaves
the edit parameters at brightness 50 — they are not reset to the
defaults. -/
theorem cancelEdit_no_reset_cex :
    (cancelEdit editingState).isEditing = false
    ∧ (cancelEdit editingState).editState ≠ INITIAL_EDIT_STATE := by
  decide

/-- C9 amended: cancelling an edit returns the session to Idle and leaves
the edit parameters, the selection, the history, the listed set and the
error banner all unchanged; in particular the edit parameters keep their
current values instead of being reset to the defaults. -/
theorem cancelEdit_frame (s : AppState) :
    (cancelEdit s).isEditing = false
    ∧ (cancelEdit s).editState = s.editState
    ∧ (cancelEdit s).currentNFT = s.currentNFT
    ∧ (cancelEdit s).history = s.history
    ∧ (cancelEdit s).listedIds = s.listedIds
    ∧ (cancelEdit s).error = s.error :=
  ⟨rfl, rfl, rfl, rfl, rfl, rfl⟩

/-- C10: loading a parseable stored record installs exactly the parsed
sequence with no capacity bound (a malformed record leaves the state
untouched), and a stored record of thirteen entries yields an in-memory
history longer than 12. -/
theorem load_unbounded :
    (∀ (l : List GeneratedNFT) (s : AppState),
        (loadHistory (some l) s).history = l)
    ∧ (∀ s : AppState, loadHistory none s = s)
    ∧ ∃ l : List GeneratedNFT,
        12 < (loadHistory (some l) initState).history.length := by
  refine ⟨fun l s => rfl, fun s => rfl, ⟨List.replicate 13 nft1, ?_⟩⟩
  decide

end NFTForge
